import Mathlib

/-!
Verification of the interactive player controller, the fragment (shard)
simulator and the vase-break resolver of the greek-vases repository.

The joystick-enabled player controller is translated from the third document of
src/unnamed/part_000 (usePlayerControls with virtual joystick, MOVE_SPEED 0.15);
the plain keyboard controller used by the forward-step scenario is translated
from the first document of the same file (moveSpeed 0.1).  The fragment
simulator is translated from the first updateShards variant of
src/src/hooks/useVaseManager.ts, and the break resolver from handleVaseClick of
the same file.  Floating-point arithmetic of the source is embedded as
real-number arithmetic; the fragment simulator, whose constants are all
rational, is embedded over the rationals so that it is executable.
-/

namespace GreekVases

/-- Component-wise model of THREE.Vector2. -/
structure V2 (α : Type) where
  x : α
  y : α
deriving DecidableEq, Repr

/-- Component-wise model of THREE.Vector3 (also used for THREE.Euler, whose
three numeric components are stored the same way; the rotation order is always
YXZ in the source). -/
structure V3 (α : Type) where
  x : α
  y : α
  z : α
deriving DecidableEq, Repr

noncomputable section

/-- Jump impulse constant JUMP_STRENGTH of the controller. -/
def JUMP_STRENGTH : ℝ := 0.18

/-- Per-frame gravity constant GRAVITY of the controller. -/
def GRAVITY : ℝ := 0.007

/-- Sensitivity constant TOUCH_ROTATE_SENSITIVITY for look rotation from a
free-touch horizontal swipe. -/
def TOUCH_ROTATE_SENSITIVITY : ℝ := 0.005

/-- Base move speed MOVE_SPEED of the joystick-enabled controller. -/
def MOVE_SPEED : ℝ := 0.15

/-- Sensitivity constant JOYSTICK_ROTATE_SENSITIVITY for rotation driven by raw
joystick deflection. -/
def JOYSTICK_ROTATE_SENSITIVITY : ℝ := 0.001

/-- Squared length of a 2-vector (THREE.Vector2.lengthSq). -/
def v2lengthSq (v : V2 ℝ) : ℝ := v.x * v.x + v.y * v.y

/-- Length of a 3-vector (THREE.Vector3.length). -/
def v3length (v : V3 ℝ) : ℝ := Real.sqrt (v.x * v.x + v.y * v.y + v.z * v.z)

/-- THREE.Vector3.normalize: divideScalar(length() || 1).  A zero-length vector
is divided by 1 (the JS or-guard), so normalize never divides by zero. -/
def v3normalize (v : V3 ℝ) : V3 ℝ :=
  let d := if v3length v = 0 then 1 else v3length v
  ⟨v.x / d, v.y / d, v.z / d⟩

/-- Application of the Euler rotation (0, yaw, 0, YXZ) to a vector, which is
what THREE.Vector3.applyEuler reduces to for a pure yaw rotation about Y. -/
def applyYaw (yaw : ℝ) (v : V3 ℝ) : V3 ℝ :=
  ⟨Real.cos yaw * v.x + Real.sin yaw * v.z, v.y,
   -Real.sin yaw * v.x + Real.cos yaw * v.z⟩

/-- JS Number(b) applied to a boolean. -/
def boolToReal (b : Bool) : ℝ := if b then 1 else 0

/-- PlayerState of usePlayerControls: position, velocity, look rotation, the
four move-intent flags and the ground flag. -/
structure PlayerState where
  position : V3 ℝ
  velocity : V3 ℝ
  rotation : V3 ℝ
  moveForward : Bool
  moveBackward : Bool
  moveLeft : Bool
  moveRight : Bool
  isOnGround : Bool

/-- Full mutable state of the joystick-enabled controller: the player state,
the camera transform (cameraRef.current, with cameraPresent false modelling a
null ref), and the touch/joystick refs of the hook.  The nullable joystick
geometry state is modelled by joystickGeomReady (false while the center is
still null) together with the numeric center/radius values. -/
structure ControlsState where
  player : PlayerState
  cameraPos : V3 ℝ
  cameraRot : V3 ℝ
  cameraPresent : Bool
  touchActive : Bool
  touchStart : Option (V2 ℝ)
  touchInitialPos : Option (V2 ℝ)
  touchStartTime : ℝ
  touchMoved : Bool
  isJoystickTouch : Bool
  joystickGeomReady : Bool
  joystickCenter : V2 ℝ
  joystickRadius : ℝ
  joystickMoveVector : V2 ℝ
  touchControlActive : Bool

/-- Horizontal velocity selection of updatePlayerPosition (third document):
a joystick vector with positive squared length is used directly, with the
lateral component scaled by 0.75; otherwise the four keyboard flags give a
normalized direction scaled by MOVE_SPEED. -/
def horizontalVelocityOf (p : PlayerState) (joystickVec : V2 ℝ) : V3 ℝ :=
  if 0 < v2lengthSq joystickVec then
    ⟨joystickVec.x * 0.75, 0, joystickVec.y⟩
  else
    let dir := v3normalize
      ⟨boolToReal p.moveRight - boolToReal p.moveLeft, 0,
       boolToReal p.moveBackward - boolToReal p.moveForward⟩
    ⟨dir.x * MOVE_SPEED, 0, dir.z * MOVE_SPEED⟩

/-- Horizontal move direction: the selected horizontal velocity rotated by the
current yaw only. -/
def moveDirectionOf (p : PlayerState) (joystickVec : V2 ℝ) : V3 ℝ :=
  applyYaw p.rotation.y (horizontalVelocityOf p joystickVec)

/-- updatePlayerPosition of the joystick-enabled controller (third document of
src/unnamed/part_000, lines 840-920): no-op without a camera; gravity and
ground clamp on the vertical axis; per-axis bounds check on the horizontal
axes; the camera position is mirrored into the player state. -/
def updatePlayerPosition (cameraHeight : ℝ) (s : ControlsState) : ControlsState :=
  if s.cameraPresent = false then s else
  let md := moveDirectionOf s.player s.joystickMoveVector
  let vy := s.player.velocity.y - GRAVITY
  let camY := s.cameraPos.y + vy
  let newY := if camY ≤ cameraHeight then cameraHeight else camY
  let newVy := if camY ≤ cameraHeight then (0 : ℝ) else vy
  let grounded := if camY ≤ cameraHeight then true else false
  let nextX := s.cameraPos.x + md.x
  let nextZ := s.cameraPos.z + md.z
  let newX := if -9.5 ≤ nextX ∧ nextX ≤ 9.5 then nextX else s.cameraPos.x
  let newZ := if -14.5 ≤ nextZ ∧ nextZ ≤ 14.5 then nextZ else s.cameraPos.z
  let newCam : V3 ℝ := ⟨newX, newY, newZ⟩
  { s with
    cameraPos := newCam,
    player := { s.player with
      position := newCam,
      velocity := ⟨s.player.velocity.x, newVy, s.player.velocity.z⟩,
      isOnGround := grounded } }

/-- State of the plain keyboard controller (first document of
src/unnamed/part_000), which has no joystick refs. -/
structure BasicControlsState where
  player : PlayerState
  cameraPos : V3 ℝ
  cameraPresent : Bool

/-- updatePlayerPosition of the plain keyboard controller (first document of
src/unnamed/part_000, lines 208-262): moveSpeed 0.1, flag-derived normalized
direction, yaw rotation, gravity, ground clamp and per-axis bounds. -/
def updatePlayerPositionBasic (cameraHeight : ℝ) (s : BasicControlsState) :
    BasicControlsState :=
  if s.cameraPresent = false then s else
  let dir := v3normalize
    ⟨boolToReal s.player.moveRight - boolToReal s.player.moveLeft, 0,
     boolToReal s.player.moveBackward - boolToReal s.player.moveForward⟩
  let hv : V3 ℝ := ⟨dir.x * 0.1, 0, dir.z * 0.1⟩
  let md := applyYaw s.player.rotation.y hv
  let vy := s.player.velocity.y - GRAVITY
  let camY := s.cameraPos.y + vy
  let newY := if camY ≤ cameraHeight then cameraHeight else camY
  let newVy := if camY ≤ cameraHeight then (0 : ℝ) else vy
  let grounded := if camY ≤ cameraHeight then true else false
  let nextX := s.cameraPos.x + md.x
  let nextZ := s.cameraPos.z + md.z
  let newX := if -9.5 ≤ nextX ∧ nextX ≤ 9.5 then nextX else s.cameraPos.x
  let newZ := if -14.5 ≤ nextZ ∧ nextZ ≤ 14.5 then nextZ else s.cameraPos.z
  let newCam : V3 ℝ := ⟨newX, newY, newZ⟩
  { s with
    cameraPos := newCam,
    player := { s.player with
      position := newCam,
      velocity := ⟨s.player.velocity.x, newVy, s.player.velocity.z⟩,
      isOnGround := grounded } }

/-- Key identity carried by a keyboard event; the source inspects event.code
(KeyW/KeyS/KeyA/KeyD/Space) for the switch and event.key for the Escape
exception of the pointer-lock gate. -/
inductive KeyInput
  | keyW
  | keyS
  | keyA
  | keyD
  | space
  | escape
  | other
deriving DecidableEq, Repr

/-- handleKeyDown of the joystick-enabled controller (third document, lines
557-586): ignored unless the pointer is locked (Escape excepted); directional
keys set flags; Space applies the jump impulse only while isOnGround. -/
def handleKeyDown (locked : Bool) (k : KeyInput) (s : ControlsState) : ControlsState :=
  if locked = false ∧ k ≠ KeyInput.escape then s
  else
    match k with
    | KeyInput.keyW => { s with player := { s.player with moveForward := true } }
    | KeyInput.keyS => { s with player := { s.player with moveBackward := true } }
    | KeyInput.keyA => { s with player := { s.player with moveLeft := true } }
    | KeyInput.keyD => { s with player := { s.player with moveRight := true } }
    | KeyInput.space =>
        if s.player.isOnGround = true then
          { s with player := { s.player with
              velocity := ⟨s.player.velocity.x, JUMP_STRENGTH, s.player.velocity.z⟩,
              isOnGround := false } }
        else s
    | _ => s

/-- handleMouseMove of the joystick-enabled controller (lines 606-628): ignored
unless the pointer is locked, the camera exists and no touch is active; applies
yaw/pitch deltas with pitch clamped to plus-minus pi/2 and copies the rotation
to the camera. -/
def handleMouseMove (locked : Bool) (movementX movementY : ℝ)
    (s : ControlsState) : ControlsState :=
  if locked = false ∨ s.cameraPresent = false ∨ s.touchActive = true then s
  else
    let rotY := s.player.rotation.y - movementX * 0.002
    let rotX := max (-(Real.pi / 2)) (min (Real.pi / 2)
      (s.player.rotation.x - movementY * 0.002))
    let newRot : V3 ℝ := ⟨rotX, rotY, s.player.rotation.z⟩
    { s with
      player := { s.player with rotation := newRot },
      cameraRot := newRot }

/-- Touch event data used by the handlers: the number of simultaneous touches
and the client coordinates of the relevant touch (touches[0], or
changedTouches[0] for touch-end). -/
structure TouchEvt where
  count : ℕ
  x : ℝ
  y : ℝ

/-- handleTouchStart of the joystick-enabled controller (lines 631-685):
ignored while the pointer is locked or for multi-touch; otherwise opens a touch
session, resets the joystick vector, and classifies the session as a joystick
touch when the geometry is ready, the radius is positive and the start point
lies strictly inside the joystick circle. -/
def handleTouchStart (locked : Bool) (now : ℝ) (ev : TouchEvt)
    (s : ControlsState) : ControlsState :=
  if locked = true then s
  else if ev.count = 1 then
    let dx := ev.x - s.joystickCenter.x
    let dy := ev.y - s.joystickCenter.y
    let isJoy :=
      if s.joystickGeomReady = true ∧ 0 < s.joystickRadius then
        (if dx * dx + dy * dy < s.joystickRadius * s.joystickRadius
         then true else false)
      else false
    { s with
      touchActive := true,
      touchInitialPos := some ⟨ev.x, ev.y⟩,
      touchStart := some ⟨ev.x, ev.y⟩,
      touchStartTime := now,
      touchMoved := false,
      joystickMoveVector := ⟨0, 0⟩,
      isJoystickTouch := isJoy,
      touchControlActive := true }
  else s

/-- Joystick move-vector computation inside handleTouchMove (lines 710-748):
the deflection (joyX, joyY) from the joystick center is normalized only after
the distance > 0 guard, clamped to the radius, and scaled by the
distance-proportional speed; a zero deflection yields the zero vector. -/
def joystickMoveVec (joyX joyY radius : ℝ) : V2 ℝ :=
  let distance := Real.sqrt (joyX * joyX + joyY * joyY)
  if 0 < distance then
    let normalizedX := joyX / distance
    let normalizedZ := joyY / distance
    let clampedDistance := min distance radius
    let speedFactor := clampedDistance / radius
    let currentMoveSpeed := MOVE_SPEED * speedFactor
    ⟨normalizedX * currentMoveSpeed, normalizedZ * currentMoveSpeed⟩
  else ⟨0, 0⟩

/-- handleTouchMove of the joystick-enabled controller (lines 687-791): guarded
by pointer lock, session presence and camera; a joystick session recomputes the
joystick move vector, applies deflection-proportional yaw while the deflection
is nonzero, and forces all four keyboard flags false; a free session zeroes the
joystick vector and applies swipe yaw under the horizontal-swipe heuristic.
The session's last point is updated in both branches. -/
def handleTouchMove (locked : Bool) (ev : TouchEvt) (s : ControlsState) :
    ControlsState :=
  if locked = true ∨ s.touchActive = false ∨ s.touchStart = none ∨
      s.cameraPresent = false then s
  else if ev.count = 1 then
    let last := s.touchStart.getD ⟨0, 0⟩
    let deltaX := ev.x - last.x
    let deltaY := ev.y - last.y
    let moved := if 5 < |deltaX| ∨ 5 < |deltaY| then true else s.touchMoved
    let newLast : Option (V2 ℝ) := some ⟨ev.x, ev.y⟩
    if s.isJoystickTouch = true then
      let joyX := ev.x - s.joystickCenter.x
      let joyY := ev.y - s.joystickCenter.y
      let distance := Real.sqrt (joyX * joyX + joyY * joyY)
      let jv := joystickMoveVec joyX joyY s.joystickRadius
      let newRot : V3 ℝ :=
        if 0 < distance then
          ⟨s.player.rotation.x,
           s.player.rotation.y - joyX * JOYSTICK_ROTATE_SENSITIVITY,
           s.player.rotation.z⟩
        else s.player.rotation
      { s with
        joystickMoveVector := jv,
        touchMoved := moved,
        touchStart := newLast,
        cameraRot := if 0 < distance then newRot else s.cameraRot,
        player := { s.player with
          rotation := newRot,
          moveForward := false,
          moveBackward := false,
          moveLeft := false,
          moveRight := false } }
    else
      let initP := s.touchInitialPos.getD ⟨0, 0⟩
      let initialDeltaX := ev.x - initP.x
      let initialDeltaY := ev.y - initP.y
      let swipe := |initialDeltaY| * 1.5 < |initialDeltaX| ∧ 10 < |initialDeltaX|
      let newRot : V3 ℝ :=
        if swipe then
          ⟨s.player.rotation.x,
           s.player.rotation.y - deltaX * TOUCH_ROTATE_SENSITIVITY,
           s.player.rotation.z⟩
        else s.player.rotation
      { s with
        joystickMoveVector := ⟨0, 0⟩,
        touchMoved := moved,
        touchStart := newLast,
        cameraRot := if swipe then newRot else s.cameraRot,
        player := { s.player with rotation := newRot } }
  else s

/-- handleTouchEnd of the joystick-enabled controller (lines 793-837), also
registered for touchcancel: a short unmoved session is classified as a tap and
its final coordinates are converted to normalized device coordinates and
forwarded (second component of the result, consumed by handleVaseClick);
otherwise the move flags and the joystick vector are cleared.  The session refs
are destroyed either way. -/
def handleTouchEnd (now innerW innerH : ℝ) (ev : TouchEvt) (s : ControlsState) :
    ControlsState × Option (V2 ℝ) :=
  if s.touchActive = false then (s, none)
  else
    let touchDuration := now - s.touchStartTime
    let isTap := touchDuration < 200 ∧ s.touchMoved = false
    let cleared :=
      if isTap then s
      else
        { s with
          joystickMoveVector := ⟨0, 0⟩,
          player := { s.player with
            moveForward := false,
            moveBackward := false,
            moveLeft := false,
            moveRight := false } }
    ({ cleared with
        touchActive := false,
        touchStart := none,
        touchInitialPos := none,
        touchMoved := false,
        isJoystickTouch := false },
     if isTap then some ⟨ev.x / innerW * 2 - 1, -(ev.y / innerH) * 2 + 1⟩
     else none)

/-- Division that reports a zero divisor, used to state that the guarded
computations of the controller never divide by zero. -/
def checkedDiv (a b : ℝ) : Option ℝ := if b = 0 then none else some (a / b)

/-- Variant of v3normalize in which every division is checked. -/
def v3normalizeChecked (v : V3 ℝ) : Option (V3 ℝ) :=
  let d := if v3length v = 0 then 1 else v3length v
  do
    let a ← checkedDiv v.x d
    let b ← checkedDiv v.y d
    let c ← checkedDiv v.z d
    some ⟨a, b, c⟩

/-- Variant of joystickMoveVec in which every division is checked. -/
def joystickMoveVecChecked (joyX joyY radius : ℝ) : Option (V2 ℝ) :=
  let distance := Real.sqrt (joyX * joyX + joyY * joyY)
  if 0 < distance then do
    let nX ← checkedDiv joyX distance
    let nZ ← checkedDiv joyY distance
    let clampedDistance := min distance radius
    let sf ← checkedDiv clampedDistance radius
    some ⟨nX * (MOVE_SPEED * sf), nZ * (MOVE_SPEED * sf)⟩
  else some ⟨0, 0⟩

/-- Per-frame input intent: everything the event handlers may change between
two kinematics updates that the update reads - the four flags, the look
rotation, the vertical velocity (jump impulse) and the joystick vector.  The
handlers never write the camera position or the horizontal velocity
components. -/
structure Intent where
  moveForward : Bool
  moveBackward : Bool
  moveLeft : Bool
  moveRight : Bool
  rotation : V3 ℝ
  velY : ℝ
  joystickMoveVector : V2 ℝ

/-- Application of an arbitrary per-frame intent to the controller state. -/
def applyIntent (i : Intent) (s : ControlsState) : ControlsState :=
  { s with
    joystickMoveVector := i.joystickMoveVector,
    player := { s.player with
      moveForward := i.moveForward,
      moveBackward := i.moveBackward,
      moveLeft := i.moveLeft,
      moveRight := i.moveRight,
      rotation := i.rotation,
      velocity := ⟨s.player.velocity.x, i.velY, s.player.velocity.z⟩ } }

/-- One animation frame: the handlers apply an arbitrary intent, then
updatePlayerPosition runs. -/
def stepFrame (cameraHeight : ℝ) (i : Intent) (s : ControlsState) : ControlsState :=
  updatePlayerPosition cameraHeight (applyIntent i s)

/-- Initial controller state: player at the default initial position
(0, 2.5, -12) with zero velocity and rotation (0, 0, 0), the camera placed at
(0, cameraHeight, -12) by useSceneSetup, and all touch/joystick refs in their
initial values. -/
def initialControlsState (cameraHeight : ℝ) : ControlsState :=
  { player :=
      { position := ⟨0, 2.5, -12⟩,
        velocity := ⟨0, 0, 0⟩,
        rotation := ⟨0, 0, 0⟩,
        moveForward := false,
        moveBackward := false,
        moveLeft := false,
        moveRight := false,
        isOnGround := false },
    cameraPos := ⟨0, cameraHeight, -12⟩,
    cameraRot := ⟨0, 0, 0⟩,
    cameraPresent := true,
    touchActive := false,
    touchStart := none,
    touchInitialPos := none,
    touchStartTime := 0,
    touchMoved := false,
    isJoystickTouch := false,
    joystickGeomReady := false,
    joystickCenter := ⟨0, 0⟩,
    joystickRadius := 0,
    joystickMoveVector := ⟨0, 0⟩,
    touchControlActive := false }

/-- Run of a sequence of frames from the initial state. -/
def runFrames (cameraHeight : ℝ) (intents : List Intent) : ControlsState :=
  intents.foldl (fun s i => stepFrame cameraHeight i s) (initialControlsState cameraHeight)

end

/-- Fragment (shard) state: position, Euler rotation, velocity, per-axis
angular velocity (rotationSpeed) and the settled flag (userData.onGround), as
stored in shard.position, shard.rotation and shard.userData by useShardManager
(first variant of src/src/hooks/useVaseManager.ts).  All constants of the
simulator are rational, so the state is embedded over the rationals and is
executable. -/
structure Shard where
  position : V3 ℚ
  rotation : V3 ℚ
  velocity : V3 ℚ
  rotationSpeed : V3 ℚ
  onGround : Bool
deriving DecidableEq, Repr

/-- Per-shard body of updateShards (src/src/hooks/useVaseManager.ts, lines
318-370): a settled shard is skipped; otherwise position and rotation advance
by velocity and rotationSpeed, gravity 0.01 lowers the vertical velocity, and
on ground contact (height below 0.05) the shard snaps to 0.05, bounces with
coefficient 0.3, gets friction 0.7 (or an outright stop) on the horizontal
velocity, zeroes a small vertical velocity, and settles permanently when both
the vertical velocity and the overall squared speed are tiny. -/
def updateShard (sh : Shard) : Shard :=
  if sh.onGround = true then sh
  else
    let pos : V3 ℚ := ⟨sh.position.x + sh.velocity.x, sh.position.y + sh.velocity.y,
                       sh.position.z + sh.velocity.z⟩
    let rot : V3 ℚ := ⟨sh.rotation.x + sh.rotationSpeed.x,
                       sh.rotation.y + sh.rotationSpeed.y,
                       sh.rotation.z + sh.rotationSpeed.z⟩
    let vy := sh.velocity.y - 0.01
    if pos.y < 0.05 then
      let posG : V3 ℚ := ⟨pos.x, 0.05, pos.z⟩
      let vyB := -vy * 0.3
      let hv : ℚ × ℚ :=
        if 0.001 < |sh.velocity.x| ∨ 0.001 < |sh.velocity.z| then
          (sh.velocity.x * 0.7, sh.velocity.z * 0.7)
        else (0, 0)
      let vyS := if |vyB| < 0.01 then 0 else vyB
      if |vyS| < 0.003 ∧ hv.1 * hv.1 + vyS * vyS + hv.2 * hv.2 < 0.00001 then
        { position := posG, rotation := rot, velocity := ⟨0, 0, 0⟩,
          rotationSpeed := ⟨0, 0, 0⟩, onGround := true }
      else
        { position := posG, rotation := rot, velocity := ⟨hv.1, vyS, hv.2⟩,
          rotationSpeed := sh.rotationSpeed, onGround := false }
    else
      { position := pos, rotation := rot,
        velocity := ⟨sh.velocity.x, vy, sh.velocity.z⟩,
        rotationSpeed := sh.rotationSpeed, onGround := false }

/-- updateShards: the source iterates over shardsRef.current by descending
index and updates every shard independently (no cross-shard interaction), which
is a map of the per-shard body over the list. -/
def updateShards (l : List Shard) : List Shard := l.map updateShard

/-- State owned by useVaseManager of src/src/hooks/useVaseManager.ts: the
hit-test array vasesRef, the scene membership of each vase, the broken set
brokenVasesSetRef, the counter brokenVasesCount, and the log of onVaseBroken
callback invocations.  Vases are identified by natural numbers. -/
structure VaseWorld where
  vases : List ℕ
  sceneObjs : List ℕ
  broken : List ℕ
  brokenVasesCount : ℕ
  events : List ℕ
deriving DecidableEq, Repr

/-- handleVaseClick of src/src/hooks/useVaseManager.ts (lines 145-198).  The
external THREE.Raycaster is modelled abstractly: a ray is the predicate of
objects it intersects, and the nearest intersection is the first hit in the
current hit-test array (distance order abstracted as array order).  Guarded by
pointer lock and the camera/scene refs; a hit on an unbroken vase adds it to
the broken set, increments the counter, removes it from the scene and from the
hit-test array, and emits exactly one onVaseBroken event; a hit on an
already-broken vase changes nothing. -/
def handleVaseClick (isPointerLocked cameraReady sceneReady : Bool)
    (ray : ℕ → Bool) (w : VaseWorld) : VaseWorld :=
  if isPointerLocked = false ∨ cameraReady = false ∨ sceneReady = false then w
  else
    match w.vases.filter ray with
    | [] => w
    | vase :: _ =>
      if vase ∈ w.broken then w
      else
        { vases := w.vases.filter (fun v => v ≠ vase),
          sceneObjs := w.sceneObjs.filter (fun v => v ≠ vase),
          broken := vase :: w.broken,
          brokenVasesCount := w.brokenVasesCount + 1,
          events := w.events ++ [vase] }

/-- Flag assignment used to state that the applied movement is independent of
the four keyboard flags. -/
def setFlags (s : ControlsState) (f b l r : Bool) : ControlsState :=
  { s with player := { s.player with
      moveForward := f, moveBackward := b, moveLeft := l, moveRight := r } }

/-- Concrete settled shard used to instantiate the terminal-settle theorem. -/
def settledShard : Shard :=
  { position := ⟨1, 0.05, 2⟩, rotation := ⟨3, 4, 5⟩, velocity := ⟨0, 0, 0⟩,
    rotationSpeed := ⟨0, 0, 0⟩, onGround := true }

/-- Concrete two-vase world used to instantiate the at-most-once theorem. -/
def vaseWorldSample : VaseWorld :=
  { vases := [1, 2], sceneObjs := [1, 2], broken := [], brokenVasesCount := 0,
    events := [] }

/-- Empty per-frame intent used to instantiate the bounds theorem. -/
def idleIntent : Intent :=
  { moveForward := false, moveBackward := false, moveLeft := false,
    moveRight := false, rotation := ⟨0, 0, 0⟩, velY := 0,
    joystickMoveVector := ⟨0, 0⟩ }

/-- Concrete keyboard-controller state used to instantiate the forward-step
scenario. -/
def basicSample : BasicControlsState :=
  { player :=
      { position := ⟨0, 2.5, -12⟩, velocity := ⟨0, 0, 0⟩, rotation := ⟨0, 0, 0⟩,
        moveForward := true, moveBackward := false, moveLeft := false,
        moveRight := false, isOnGround := false },
    cameraPos := ⟨0, 2.5, -12⟩,
    cameraPresent := true }

/-- Controller state in an active joystick touch session with a nonzero
joystick vector, used to instantiate the precedence theorem. -/
def joystickSessionState : ControlsState :=
  { initialControlsState 2.5 with
    touchActive := true,
    touchStart := some ⟨400, 700⟩,
    touchInitialPos := some ⟨400, 700⟩,
    isJoystickTouch := true,
    joystickGeomReady := true,
    joystickCenter := ⟨400, 700⟩,
    joystickRadius := 40,
    joystickMoveVector := ⟨1, 0⟩ }

/-- Grounded controller state with zero velocity, used for the jump-gating
analysis. -/
def groundedState : ControlsState :=
  { initialControlsState 2.5 with
    player := { (initialControlsState 2.5).player with isOnGround := true } }

/-- Controller state with an open touch session, used to instantiate the
amended exclusivity theorem. -/
def touchingState : ControlsState :=
  { initialControlsState 2.5 with touchActive := true }

/-! Theorems -/

theorem updateShards_iterate_eq_map (n : ℕ) (l : List Shard) :
    updateShards^[n] l = l.map (fun sh => updateShard^[n] sh) := by
  induction n generalizing l with
  | zero => simp
  | succ m ih =>
      rw [Function.iterate_succ_apply, ih]
      simp [updateShards, List.map_map, Function.iterate_succ_apply, Function.comp]

/-- C2: once a fragment's settled flag (userData.onGround) is true, every
subsequent updateShards step leaves its position, rotation, velocity and
angular velocity (rotationSpeed) unchanged, and the flag never returns to
false: iterating the per-shard step any number of times is the identity on a
settled shard, and the per-frame updateShards is exactly that step mapped over
the shard list. -/
theorem settled_shard_terminal (sh : Shard) (n : ℕ) (h : sh.onGround = true) :
    updateShard^[n] sh = sh ∧
    ∀ l : List Shard, updateShards^[n] l = l.map (fun s0 => updateShard^[n] s0) := by
  refine ⟨?_, updateShards_iterate_eq_map n⟩
  induction n with
  | zero => rfl
  | succ m ih =>
      rw [Function.iterate_succ_apply, show updateShard sh = sh from by
        simp [updateShard, h], ih]

theorem settled_shard_terminal_witness :
    settledShard.onGround = true ∧ updateShard^[5] settledShard = settledShard :=
  ⟨rfl, (settled_shard_terminal settledShard 5 rfl).1⟩

theorem handleVaseClick_not_present (vase : ℕ) (w : VaseWorld)
    (h : vase ∉ w.vases) :
    handleVaseClick true true true (fun v => v == vase) w = w := by
  have hf : w.vases.filter (fun v => v == vase) = [] := by
    rw [List.filter_eq_nil_iff]
    intro a ha hb
    have hav : a = vase := by simpa using hb
    exact h (hav ▸ ha)
  simp [handleVaseClick, hf]

theorem handleVaseClick_head_eq (vase a : ℕ) (t : List ℕ) (w : VaseWorld)
    (hF : w.vases.filter (fun v => v == vase) = a :: t) : a = vase := by
  have hmem : a ∈ w.vases.filter (fun v => v == vase) := by
    rw [hF]; exact List.mem_cons_self a t
  have := (List.mem_filter.mp hmem).2
  simpa using this

theorem handleVaseClick_broken_noop (vase : ℕ) (w : VaseWorld)
    (hb : vase ∈ w.broken) :
    handleVaseClick true true true (fun v => v == vase) w = w := by
  cases hF : w.vases.filter (fun v => v == vase) with
  | nil => simp [handleVaseClick, hF]
  | cons a t =>
      have ha := handleVaseClick_head_eq vase a t w hF
      subst ha
      simp [handleVaseClick, hF, hb]

theorem handleVaseClick_breaks (vase : ℕ) (w : VaseWorld)
    (hv : vase ∈ w.vases) (hb : vase ∉ w.broken) :
    handleVaseClick true true true (fun v => v == vase) w =
      { vases := w.vases.filter (fun v => v ≠ vase),
        sceneObjs := w.sceneObjs.filter (fun v => v ≠ vase),
        broken := vase :: w.broken,
        brokenVasesCount := w.brokenVasesCount + 1,
        events := w.events ++ [vase] } := by
  have hmem : vase ∈ w.vases.filter (fun v => v == vase) := by
    simp [List.mem_filter, hv]
  cases hF : w.vases.filter (fun v => v == vase) with
  | nil => rw [hF] at hmem; cases hmem
  | cons a t =>
      have ha := handleVaseClick_head_eq vase a t w hF
      subst ha
      simp [handleVaseClick, hF, hb]

/-- C3: against a vase present in the hit-test set and not yet broken, any
positive number of handleVaseClick invocations with rays resolving to that vase
emits exactly one onVaseBroken event for it, increments the broken count
exactly once, removes it once from the hit-test set and from the scene, and
adds it to the broken set; and a break attempt against an already-broken vase
changes no state at all. -/
theorem vase_break_at_most_once (w : VaseWorld) (vase : ℕ) (n : ℕ)
    (h1 : vase ∈ w.vases) (h2 : vase ∈ w.sceneObjs) (h3 : vase ∉ w.broken)
    (hn : 1 ≤ n) :
    ((handleVaseClick true true true (fun v => v == vase))^[n] w).events.count vase
        = w.events.count vase + 1 ∧
    ((handleVaseClick true true true (fun v => v == vase))^[n] w).brokenVasesCount
        = w.brokenVasesCount + 1 ∧
    vase ∉ ((handleVaseClick true true true (fun v => v == vase))^[n] w).vases ∧
    vase ∉ ((handleVaseClick true true true (fun v => v == vase))^[n] w).sceneObjs ∧
    vase ∈ ((handleVaseClick true true true (fun v => v == vase))^[n] w).broken ∧
    ∀ w2 : VaseWorld, vase ∈ w2.broken →
      handleVaseClick true true true (fun v => v == vase) w2 = w2 := by
  obtain ⟨m, rfl⟩ : ∃ m, n = m + 1 := ⟨n - 1, (Nat.succ_pred_eq_of_pos hn).symm⟩
  set w1 : VaseWorld :=
    { vases := w.vases.filter (fun v => v ≠ vase),
      sceneObjs := w.sceneObjs.filter (fun v => v ≠ vase),
      broken := vase :: w.broken,
      brokenVasesCount := w.brokenVasesCount + 1,
      events := w.events ++ [vase] } with hw1
  have hstep : handleVaseClick true true true (fun v => v == vase) w = w1 :=
    handleVaseClick_breaks vase w h1 h3
  have hnot : vase ∉ w1.vases := by
    rw [hw1]
    simp
  have hrest : (handleVaseClick true true true (fun v => v == vase))^[m] w1 = w1 := by
    clear hstep hw1 hn
    induction m with
    | zero => rfl
    | succ k ih =>
        rw [Function.iterate_succ_apply, handleVaseClick_not_present vase w1 hnot, ih]
  rw [Function.iterate_succ_apply, hstep, hrest]
  refine ⟨?_, rfl, hnot, ?_, ?_, fun w2 hb => handleVaseClick_broken_noop vase w2 hb⟩
  · rw [hw1]
    simp
  · rw [hw1]
    simp
  · rw [hw1]
    exact List.mem_cons_self vase w.broken

theorem vase_break_at_most_once_witness :
    1 ∈ vaseWorldSample.vases ∧
    ((handleVaseClick true true true (fun v => v == 1))^[2] vaseWorldSample).brokenVasesCount
      = vaseWorldSample.brokenVasesCount + 1 :=
  ⟨by decide, (vase_break_at_most_once vaseWorldSample 1 2 (by decide) (by decide)
    (by decide) (by decide)).2.1⟩

theorem le_ite_bounds (lo hi a b : ℝ) (h : lo ≤ b) :
    lo ≤ if lo ≤ a ∧ a ≤ hi then a else b := by
  split
  next hc => exact hc.1
  next => exact h

theorem ite_bounds_le (lo hi a b : ℝ) (h : b ≤ hi) :
    (if lo ≤ a ∧ a ≤ hi then a else b) ≤ hi := by
  split
  next hc => exact hc.2
  next => exact h

theorem updatePlayerPosition_preserves_bounds (ch : ℝ) (s : ControlsState)
    (hx1 : -9.5 ≤ s.cameraPos.x) (hx2 : s.cameraPos.x ≤ 9.5)
    (hz1 : -14.5 ≤ s.cameraPos.z) (hz2 : s.cameraPos.z ≤ 14.5) :
    -9.5 ≤ (updatePlayerPosition ch s).cameraPos.x ∧
    (updatePlayerPosition ch s).cameraPos.x ≤ 9.5 ∧
    -14.5 ≤ (updatePlayerPosition ch s).cameraPos.z ∧
    (updatePlayerPosition ch s).cameraPos.z ≤ 14.5 := by
  unfold updatePlayerPosition
  split
  next => exact ⟨hx1, hx2, hz1, hz2⟩
  next =>
    exact ⟨le_ite_bounds _ _ _ _ hx1, ite_bounds_le _ _ _ _ hx2,
      le_ite_bounds _ _ _ _ hz1, ite_bounds_le _ _ _ _ hz2⟩

theorem stepFrame_preserves_bounds (ch : ℝ) (i : Intent) (s : ControlsState)
    (hx1 : -9.5 ≤ s.cameraPos.x) (hx2 : s.cameraPos.x ≤ 9.5)
    (hz1 : -14.5 ≤ s.cameraPos.z) (hz2 : s.cameraPos.z ≤ 14.5) :
    -9.5 ≤ (stepFrame ch i s).cameraPos.x ∧
    (stepFrame ch i s).cameraPos.x ≤ 9.5 ∧
    -14.5 ≤ (stepFrame ch i s).cameraPos.z ∧
    (stepFrame ch i s).cameraPos.z ≤ 14.5 :=
  updatePlayerPosition_preserves_bounds ch (applyIntent i s) hx1 hx2 hz1 hz2

/-- C1: along every sequence of per-frame kinematics updates from the initial
player position, under arbitrary per-frame movement flags, joystick vectors and
yaw, the horizontal camera (and hence player) position stays inside the world
bounds x in [-9.5, 9.5] and z in [-14.5, 14.5]; moreover the two horizontal
axes are tested and applied independently, so each axis moves to its candidate
exactly when that candidate alone is in bounds (wall sliding). -/
theorem player_bounds_invariant (ch : ℝ) (intents : List Intent) :
    (-9.5 ≤ (runFrames ch intents).cameraPos.x ∧
     (runFrames ch intents).cameraPos.x ≤ 9.5 ∧
     -14.5 ≤ (runFrames ch intents).cameraPos.z ∧
     (runFrames ch intents).cameraPos.z ≤ 14.5) ∧
    ∀ (i : Intent) (s : ControlsState), s.cameraPresent = true →
      (stepFrame ch i s).cameraPos.x =
        (if -9.5 ≤ s.cameraPos.x +
              (moveDirectionOf (applyIntent i s).player i.joystickMoveVector).x ∧
            s.cameraPos.x +
              (moveDirectionOf (applyIntent i s).player i.joystickMoveVector).x ≤ 9.5
         then s.cameraPos.x +
            (moveDirectionOf (applyIntent i s).player i.joystickMoveVector).x
         else s.cameraPos.x) ∧
      (stepFrame ch i s).cameraPos.z =
        (if -14.5 ≤ s.cameraPos.z +
              (moveDirectionOf (applyIntent i s).player i.joystickMoveVector).z ∧
            s.cameraPos.z +
              (moveDirectionOf (applyIntent i s).player i.joystickMoveVector).z ≤ 14.5
         then s.cameraPos.z +
            (moveDirectionOf (applyIntent i s).player i.joystickMoveVector).z
         else s.cameraPos.z) := by
  constructor
  · have H : ∀ (l : List Intent) (s : ControlsState),
        (-9.5 ≤ s.cameraPos.x ∧ s.cameraPos.x ≤ 9.5 ∧
         -14.5 ≤ s.cameraPos.z ∧ s.cameraPos.z ≤ 14.5) →
        (-9.5 ≤ (l.foldl (fun a i => stepFrame ch i a) s).cameraPos.x ∧
         (l.foldl (fun a i => stepFrame ch i a) s).cameraPos.x ≤ 9.5 ∧
         -14.5 ≤ (l.foldl (fun a i => stepFrame ch i a) s).cameraPos.z ∧
         (l.foldl (fun a i => stepFrame ch i a) s).cameraPos.z ≤ 14.5) := by
      intro l
      induction l with
      | nil => intro s hs; simpa using hs
      | cons i t ih =>
          intro s hs
          exact ih _ (stepFrame_preserves_bounds ch i s hs.1 hs.2.1 hs.2.2.1 hs.2.2.2)
    have h0 : -9.5 ≤ (initialControlsState ch).cameraPos.x ∧
        (initialControlsState ch).cameraPos.x ≤ 9.5 ∧
        -14.5 ≤ (initialControlsState ch).cameraPos.z ∧
        (initialControlsState ch).cameraPos.z ≤ 14.5 := by
      norm_num [initialControlsState]
    simpa [runFrames] using H intents (initialControlsState ch) h0
  · intro i s hc
    constructor <;> simp [stepFrame, updatePlayerPosition, applyIntent, hc]

theorem player_bounds_invariant_witness :
    (initialControlsState 2.5).cameraPresent = true ∧
    ((stepFrame 2.5 idleIntent (initialControlsState 2.5)).cameraPos.x =
      (if -9.5 ≤ (initialControlsState 2.5).cameraPos.x +
            (moveDirectionOf (applyIntent idleIntent (initialControlsState 2.5)).player
              idleIntent.joystickMoveVector).x ∧
          (initialControlsState 2.5).cameraPos.x +
            (moveDirectionOf (applyIntent idleIntent (initialControlsState 2.5)).player
              idleIntent.joystickMoveVector).x ≤ 9.5
       then (initialControlsState 2.5).cameraPos.x +
          (moveDirectionOf (applyIntent idleIntent (initialControlsState 2.5)).player
            idleIntent.joystickMoveVector).x
       else (initialControlsState 2.5).cameraPos.x) ∧
     (stepFrame 2.5 idleIntent (initialControlsState 2.5)).cameraPos.z =
      (if -14.5 ≤ (initialControlsState 2.5).cameraPos.z +
            (moveDirectionOf (applyIntent idleIntent (initialControlsState 2.5)).player
              idleIntent.joystickMoveVector).z ∧
          (initialControlsState 2.5).cameraPos.z +
            (moveDirectionOf (applyIntent idleIntent (initialControlsState 2.5)).player
              idleIntent.joystickMoveVector).z ≤ 14.5
       then (initialControlsState 2.5).cameraPos.z +
          (moveDirectionOf (applyIntent idleIntent (initialControlsState 2.5)).player
            idleIntent.joystickMoveVector).z
       else (initialControlsState 2.5).cameraPos.z)) :=
  ⟨rfl, (player_bounds_invariant 2.5 []).2 idleIntent (initialControlsState 2.5) rfl⟩

/-- C4: immediately after any kinematics update (hence after every frame,
including all frames other than the first), the ground flag is true exactly
when the player's vertical position equals the eye-height constant cameraHeight
and the vertical velocity is zero. -/
theorem ground_flag_iff (ch : ℝ) (s : ControlsState)
    (hc : s.cameraPresent = true) :
    ((updatePlayerPosition ch s).player.isOnGround = true ↔
      ((updatePlayerPosition ch s).player.position.y = ch ∧
       (updatePlayerPosition ch s).player.velocity.y = 0)) := by
  simp only [updatePlayerPosition, hc]
  norm_num
  constructor
  · intro hle
    exact ⟨fun hgt => absurd hgt (not_lt_of_le hle),
           fun hgt => absurd hgt (not_lt_of_le hle)⟩
  · rintro ⟨hy, -⟩
    by_contra hgt
    exact absurd (hy (lt_of_not_le hgt)) (ne_of_gt (lt_of_not_le hgt))

theorem ground_flag_iff_witness :
    (initialControlsState 2.5).cameraPresent = true ∧
    ((updatePlayerPosition 2.5 (initialControlsState 2.5)).player.isOnGround = true ↔
      ((updatePlayerPosition 2.5 (initialControlsState 2.5)).player.position.y = 2.5 ∧
       (updatePlayerPosition 2.5 (initialControlsState 2.5)).player.velocity.y = 0)) :=
  ⟨rfl, ground_flag_iff 2.5 (initialControlsState 2.5) rfl⟩

/-- C9: in the plain keyboard controller, a single update with only the
move-forward flag set, yaw zero and the z-candidate within bounds moves the
camera by exactly -0.1 on the z axis (forward is -Z at move speed 0.1) and
leaves the x coordinate unchanged. -/
theorem forward_step_scenario (ch : ℝ) (s : BasicControlsState)
    (hc : s.cameraPresent = true)
    (hf : s.player.moveForward = true) (hb : s.player.moveBackward = false)
    (hl : s.player.moveLeft = false) (hr : s.player.moveRight = false)
    (hyaw : s.player.rotation.y = 0)
    (hz1 : -14.5 ≤ s.cameraPos.z - 0.1) (hz2 : s.cameraPos.z - 0.1 ≤ 14.5) :
    (updatePlayerPositionBasic ch s).cameraPos.z = s.cameraPos.z - 0.1 ∧
    (updatePlayerPositionBasic ch s).cameraPos.x = s.cameraPos.x := by
  have hdir : v3normalize
      ⟨boolToReal s.player.moveRight - boolToReal s.player.moveLeft, 0,
       boolToReal s.player.moveBackward - boolToReal s.player.moveForward⟩ =
      ⟨0, 0, -1⟩ := by
    rw [hf, hb, hl, hr]
    unfold v3normalize v3length boolToReal
    norm_num
  simp only [updatePlayerPositionBasic, hc, hyaw, hdir]
  norm_num [applyYaw]
  split_ifs with h
  · ring
  · exact absurd (And.intro (by linarith) (by linarith)) h

theorem forward_step_scenario_witness :
    (updatePlayerPositionBasic 2.5 basicSample).cameraPos.z =
      basicSample.cameraPos.z - 0.1 ∧
    (updatePlayerPositionBasic 2.5 basicSample).cameraPos.x =
      basicSample.cameraPos.x :=
  forward_step_scenario 2.5 basicSample rfl rfl rfl rfl rfl rfl
    (by norm_num [basicSample]) (by norm_num [basicSample])

/-- C5: whenever the joystick move vector has positive squared length, the
horizontal velocity selected by the kinematics update is the joystick vector
itself with the lateral component scaled by 0.75 (not the keyboard-derived
unit vector), the resulting camera position is independent of the four
keyboard flags, and a touch-move in an active joystick session forces all four
keyboard flags false. -/
theorem joystick_precedence (ch : ℝ) (s : ControlsState) (ev : TouchEvt)
    (f1 b1 l1 r1 f2 b2 l2 r2 : Bool) :
    (0 < v2lengthSq s.joystickMoveVector →
      horizontalVelocityOf s.player s.joystickMoveVector =
        ⟨s.joystickMoveVector.x * 0.75, 0, s.joystickMoveVector.y⟩) ∧
    (0 < v2lengthSq s.joystickMoveVector →
      (updatePlayerPosition ch (setFlags s f1 b1 l1 r1)).cameraPos =
        (updatePlayerPosition ch (setFlags s f2 b2 l2 r2)).cameraPos) ∧
    (s.touchActive = true → s.touchStart ≠ none → s.cameraPresent = true →
     s.isJoystickTouch = true → ev.count = 1 →
      (handleTouchMove false ev s).player.moveForward = false ∧
      (handleTouchMove false ev s).player.moveBackward = false ∧
      (handleTouchMove false ev s).player.moveLeft = false ∧
      (handleTouchMove false ev s).player.moveRight = false) := by
  refine ⟨?_, ?_, ?_⟩
  · intro h
    unfold horizontalVelocityOf
    rw [if_pos h]
  · intro h
    simp [updatePlayerPosition, setFlags, moveDirectionOf, horizontalVelocityOf, h]
    split_ifs <;> rfl
  · intro ht hs hc hj hcnt
    refine ⟨?_, ?_, ?_, ?_⟩ <;> simp [handleTouchMove, ht, hs, hc, hj, hcnt]

theorem joystick_precedence_witness :
    horizontalVelocityOf joystickSessionState.player
        joystickSessionState.joystickMoveVector =
      ⟨joystickSessionState.joystickMoveVector.x * 0.75, 0,
       joystickSessionState.joystickMoveVector.y⟩ ∧
    (handleTouchMove false ⟨1, 410, 700⟩ joystickSessionState).player.moveForward
      = false :=
  ⟨(joystick_precedence 2.5 joystickSessionState ⟨1, 410, 700⟩
      true true true true false false false false).1
      (by norm_num [joystickSessionState, initialControlsState, v2lengthSq]),
   ((joystick_precedence 2.5 joystickSessionState ⟨1, 410, 700⟩
      true true true true false false false false).2.2 rfl
      (by simp [joystickSessionState]) rfl rfl rfl).1⟩

/-- C6 counterexample: with the pointer not locked, a Space key-down on a
grounded player leaves the entire state unchanged - vertical velocity stays 0
rather than becoming the jump impulse 0.18 - so isOnGround = true alone does
not suffice for the impulse, contrary to the claim. -/
theorem jump_gating_counterexample :
    groundedState.player.isOnGround = true ∧
    handleKeyDown false KeyInput.space groundedState = groundedState ∧
    groundedState.player.velocity.y = 0 ∧ (0 : ℝ) ≠ JUMP_STRENGTH := by
  refine ⟨rfl, ?_, rfl, by norm_num [JUMP_STRENGTH]⟩
  simp [handleKeyDown]

/-- C6 amended: a Space key-down while the player is not on the ground never
alters the state, and neither does one while the pointer is not locked
(keyboard input inactive); the jump impulse 0.18 with the clearing of
isOnGround is applied exactly when the player is grounded and the pointer is
locked. -/
theorem jump_gating_amended (locked : Bool) (s : ControlsState) :
    (s.player.isOnGround = false → handleKeyDown locked KeyInput.space s = s) ∧
    (handleKeyDown false KeyInput.space s = s) ∧
    (s.player.isOnGround = true →
      handleKeyDown true KeyInput.space s =
        { s with player := { s.player with
            velocity := ⟨s.player.velocity.x, JUMP_STRENGTH, s.player.velocity.z⟩,
            isOnGround := false } }) := by
  refine ⟨?_, ?_, ?_⟩
  · intro h
    cases locked <;> simp [handleKeyDown, h]
  · simp [handleKeyDown]
  · intro h
    simp [handleKeyDown, h]

theorem jump_gating_amended_witness :
    groundedState.player.isOnGround = true ∧
    handleKeyDown true KeyInput.space groundedState =
      { groundedState with player := { groundedState.player with
          velocity := ⟨groundedState.player.velocity.x, JUMP_STRENGTH,
            groundedState.player.velocity.z⟩,
          isOnGround := false } } :=
  ⟨rfl, (jump_gating_amended true groundedState).2.2 rfl⟩

/-- C7: with a positive joystick radius (guaranteed by the joystick-session
classification), the joystick move-vector computation performs no division by
zero - the checked variant always succeeds and agrees with the code - a
zero-magnitude deflection yields the zero vector (no movement) rather than an
error, and the normalize call of the kinematics update never divides by zero
thanks to the length-or-one guard. -/
theorem no_division_by_zero (joyX joyY radius : ℝ) (v : V3 ℝ)
    (hr : 0 < radius) :
    (joystickMoveVecChecked joyX joyY radius).isSome = true ∧
    joystickMoveVecChecked joyX joyY radius =
      some (joystickMoveVec joyX joyY radius) ∧
    (joyX * joyX + joyY * joyY = 0 → joystickMoveVec joyX joyY radius = ⟨0, 0⟩) ∧
    (v3normalizeChecked v).isSome = true ∧
    v3normalizeChecked v = some (v3normalize v) := by
  have hd : (if v3length v = 0 then (1 : ℝ) else v3length v) ≠ 0 := by
    split
    · norm_num
    next h => exact h
  have hnorm : v3normalizeChecked v = some (v3normalize v) := by
    simp [v3normalizeChecked, v3normalize, checkedDiv, hd]
  have hjs : joystickMoveVecChecked joyX joyY radius =
      some (joystickMoveVec joyX joyY radius) := by
    by_cases hdist : 0 < Real.sqrt (joyX * joyX + joyY * joyY)
    · have hne : Real.sqrt (joyX * joyX + joyY * joyY) ≠ 0 := ne_of_gt hdist
      have hrne : radius ≠ 0 := ne_of_gt hr
      simp [joystickMoveVecChecked, joystickMoveVec, checkedDiv, hdist, hne, hrne]
    · simp [joystickMoveVecChecked, joystickMoveVec, hdist]
  refine ⟨by rw [hjs]; rfl, hjs, ?_, by rw [hnorm]; rfl, hnorm⟩
  intro h0
  simp [joystickMoveVec, h0]

theorem no_division_by_zero_witness :
    (0 : ℝ) < 5 ∧ (joystickMoveVecChecked 3 4 5).isSome = true :=
  ⟨by norm_num, (no_division_by_zero 3 4 5 ⟨0, 0, 0⟩ (by norm_num)).1⟩

/-- C8 counterexample: with pointer-lock NOT engaged, a single-finger
touch-start does change session state (it opens a touch session: touchActive
flips from false to true), refuting the claim that touch events change no
state whenever pointer-capture mode is not engaged; the code ignores touch in
the opposite case, namely while the pointer IS locked. -/
theorem input_exclusivity_counterexample :
    (initialControlsState 2.5).touchActive = false ∧
    (handleTouchStart false 0 ⟨1, 100, 100⟩
      (initialControlsState 2.5)).touchActive = true := by
  refine ⟨rfl, ?_⟩
  simp [handleTouchStart]

/-- C8 amended: the two device families are mutually exclusive in the
direction the code implements: mouse-look changes no state while a touch
session is active, touch-start and touch-move change no state while pointer
lock IS engaged, and touch-end (also serving touchcancel) changes no state
while no touch session is active. -/
theorem input_exclusivity_amended (locked : Bool) (now innerW innerH mx my : ℝ)
    (ev : TouchEvt) (s : ControlsState) :
    (s.touchActive = true → handleMouseMove locked mx my s = s) ∧
    (handleTouchStart true now ev s = s) ∧
    (handleTouchMove true ev s = s) ∧
    (s.touchActive = false → handleTouchEnd now innerW innerH ev s = (s, none)) := by
  refine ⟨?_, ?_, ?_, ?_⟩
  · intro h
    simp [handleMouseMove, h]
  · simp [handleTouchStart]
  · simp [handleTouchMove]
  · intro h
    simp [handleTouchEnd, h]

theorem input_exclusivity_amended_witness :
    touchingState.touchActive = true ∧
    handleMouseMove true 3 4 touchingState = touchingState :=
  ⟨rfl, (input_exclusivity_amended true 0 800 600 3 4 ⟨1, 0, 0⟩ touchingState).1 rfl⟩

/-- C10: no touch handler - touch start, touch move in a joystick or a free
session, or touch end (which is also registered for touchcancel) - ever
modifies the pitch component rotation.x of the player's look rotation, for any
lock state, event data and controller state; touch input can change only yaw,
the movement flags and the joystick vector, so vertical look is reachable only
through mouse input. -/
theorem touch_never_changes_pitch (locked : Bool) (now innerW innerH : ℝ)
    (ev : TouchEvt) (s : ControlsState) :
    (handleTouchStart locked now ev s).player.rotation.x = s.player.rotation.x ∧
    (handleTouchMove locked ev s).player.rotation.x = s.player.rotation.x ∧
    ((handleTouchEnd now innerW innerH ev s).1).player.rotation.x =
      s.player.rotation.x := by
  refine ⟨?_, ?_, ?_⟩
  · simp only [handleTouchStart]
    split_ifs <;> rfl
  · simp only [handleTouchMove]
    split_ifs <;> simp [apply_ite]
  · simp only [handleTouchEnd]
    split_ifs <;> simp

end GreekVases
